import Mathlib

/-!
Shallow embedding of `src/rust/ballista/src/dataframe.rs` (the Ballista
lazy query builder and backend dispatcher), together with the parts of
its data model that live in sibling modules of the same crate
(`logicalplan.rs`, `error.rs`, `plan.rs`) which are modelled from the
specification, and the Arrow schema types it consumes.

Conventions of the embedding:
* Rust `HashMap<String, String>` values are modelled as association
  lists `List (String × String)` with first-match lookup.
* Rust `Result<T>` (with `BallistaError`) is `Except BallistaError T`.
* A Rust computation that can panic (indexing a map with a missing key,
  `Option::unwrap`, out-of-bounds `Schema::field`) is modelled with the
  explicit outcome type `RustOutcome`: `.panics` is divergence, `.ok`
  a normal return.
* `usize`/`u64` are `Nat`; the cast `n as u64` is `n % 2 ^ 64`.
-/

set_option autoImplicit false

namespace Ballista

/-- Outcome of a Rust computation that may panic: `.panics` models
divergence via `panic!`/`unwrap` on `None`/indexing a missing key,
`.ok` a normal return of a value. -/
inductive RustOutcome (α : Type) where
  | panics
  | ok (a : α)
  deriving Repr, DecidableEq

/-- Arrow data types used by this crate (external `arrow` crate;
only the variants this development needs). -/
inductive DataType where
  | Float64
  | UInt64
  | Int64
  | Utf8
  | Boolean
  deriving Repr, DecidableEq

/-- Arrow field: a named, typed column (external `arrow` crate). -/
structure Field where
  name : String
  dataType : DataType
  deriving Repr, DecidableEq

/-- Arrow schema: an ordered sequence of fields (external `arrow`
crate). -/
structure Schema where
  fields : List Field
  deriving Repr, DecidableEq

/-- `Schema::empty()` of the external `arrow` crate. -/
def Schema.empty : Schema := ⟨[]⟩

/-- `Schema::field(i)`, made total by returning an `Option`: the Rust
accessor panics when `i` is out of bounds, which callers of this
embedding surface through `RustOutcome.panics`. -/
def Schema.field? (s : Schema) (i : Nat) : Option Field :=
  s.fields.get? i

/-- Arrow record batch (external `arrow` crate); only its schema is
observable from this core, so the row payload is not modelled. -/
structure RecordBatch where
  schema : Schema
  deriving Repr, DecidableEq

/-- Modelled from the spec: scalar constants of the expression algebra
(`ScalarValue` in the crate's `logicalplan.rs`, which is not under
`src/`); `dataframe.rs` itself only constructs the unsigned 64-bit
variant, in `limit`. -/
inductive ScalarValue where
  | UInt64 (n : Nat)
  deriving Repr, DecidableEq

/-- Modelled from the spec: the expression algebra (`Expr` in the
crate's `logicalplan.rs`, which is not under `src/`): `Column(index)`
is a positional reference into the input schema, `Literal(scalar)` a
typed constant, `Wildcard` the projection-list marker, and
`AggregateFunction` a named aggregate call with a statically declared
return type. -/
inductive Expr where
  | Column (index : Nat)
  | Literal (value : ScalarValue)
  | Wildcard
  | AggregateFunction (name : String) (args : List Expr) (return_type : DataType)
  deriving Repr

/-- Discriminant test used by `project` (the Rust code compares against
`Expr::Wildcard` with structural equality; comparing with the nullary
`Wildcard` variant only inspects the discriminant). -/
def Expr.isWildcard : Expr → Bool
  | .Wildcard => true
  | _ => false

/-- Modelled from the spec: the logical-plan algebra (`LogicalPlan` in
the crate's `logicalplan.rs`, which is not under `src/`); the variants
and their payloads are exactly those constructed in `dataframe.rs`. -/
inductive LogicalPlan where
  | EmptyRelation (schema : Schema)
  | MemoryScan (batches : List RecordBatch)
  | FileScan (path : String) (file_type : String) (schema : Schema)
      (projected_schema : Schema) (projection : Option (List Nat))
  | Projection (expr : List Expr) (input : LogicalPlan) (schema : Schema)
  | Selection (expr : Expr) (input : LogicalPlan)
  | Limit (expr : Expr) (input : LogicalPlan) (schema : Schema)
  | Aggregate (input : LogicalPlan) (group_expr : List Expr)
      (aggr_expr : List Expr) (schema : Schema)

/-- Modelled from the spec: `LogicalPlan::schema()` of the crate's
`logicalplan.rs` (not under `src/`): every non-leaf node returns the
schema stored at construction; a `Selection` passes its input's schema
through unchanged; a `FileScan` exposes its projected schema; a
`MemoryScan` exposes the schema of its batches. -/
def LogicalPlan.schema : LogicalPlan → Schema
  | .EmptyRelation s => s
  | .MemoryScan batches => ((batches.head?).map RecordBatch.schema).getD Schema.empty
  | .FileScan _ _ _ projected _ => projected
  | .Projection _ _ s => s
  | .Selection _ input => input.schema
  | .Limit _ _ s => s
  | .Aggregate _ _ _ s => s

/-- Modelled from the spec: the error taxonomy (`BallistaError` in the
crate's `error.rs`, which is not under `src/`); kinds are those of the
spec's error-handling design. -/
inductive BallistaError where
  | SchemaError (msg : String)
  | NotImplemented (msg : String)
  | ConfigurationError (msg : String)
  | DataFusionError (msg : String)
  | TransportError (msg : String)
  deriving Repr, DecidableEq

/-- `Result<T>` of the crate's `error.rs`. -/
abbrev BResult (α : Type) := Except BallistaError α

/-- Modelled from the spec: the single wire request type (`Action` in
the crate's `plan.rs`, which is not under `src/`): `Collect{plan}`. -/
inductive Action where
  | Collect (plan : LogicalPlan)

/-! ## Configuration resolver (`Configs`, from `dataframe.rs`) -/

/-- `CSV_BATCH_SIZE` constant. -/
def CSV_BATCH_SIZE : String := "ballista.csv.batchSize"

/-- `ConfigSetting`: one catalog entry. -/
structure ConfigSetting where
  key : String
  description : String
  default_value : Option String
  deriving Repr, DecidableEq

/-- `Configs`: the catalog of known settings plus the user-supplied
overrides, both as first-match association lists. -/
structure Configs where
  configs : List (String × ConfigSetting)
  settings : List (String × String)

/-- `Configs::new`: builds the static catalog (one entry, the CSV batch
size with default "1024") and stores the caller's settings. -/
def Configs.new (settings : List (String × String)) : Configs :=
  let csv_batch_size : ConfigSetting :=
    ⟨CSV_BATCH_SIZE, "Number of rows to read per batch", some "1024"⟩
  { configs := [(csv_batch_size.key, csv_batch_size)]
    settings := settings }

/-- `Configs::get_setting`: overrides first, then the catalog entry's
default value, then absent. -/
def Configs.get_setting (c : Configs) (name : String) : Option String :=
  match c.settings.lookup name with
  | some value => some value
  | none =>
    match c.configs.lookup name with
    | some value => value.default_value
    | none => none

/-- `Configs::csv_batch_size`. -/
def Configs.csv_batch_size (c : Configs) : Option String :=
  c.get_setting CSV_BATCH_SIZE

/-! ## Context state and schema derivation helpers -/

/-- `ContextState`: the fixed three-way choice of execution backend. -/
inductive ContextState where
  | Local (settings : List (String × String))
  | Remote (host : String) (port : Nat) (settings : List (String × String))
  | Spark (master : String) (spark_settings : List (String × String))
  deriving Repr

/-- Representative rendering of the Rust `Debug` output of a
`ContextState` (the Rust `HashMap` iterates in unspecified order, so
this fixes the association-list order of the model). -/
def ContextState.debugFmt : ContextState → String
  | .Local settings => "Local \x7b settings: " ++ toString settings ++ " \x7d"
  | .Remote host port settings =>
    "Remote \x7b host: " ++ host ++ ", port: " ++ toString port ++
      ", settings: " ++ toString settings ++ " \x7d"
  | .Spark master spark_settings =>
    "Spark \x7b master: " ++ master ++ ", spark_settings: " ++
      toString spark_settings ++ " \x7d"

/-- `str::parse::<usize>` on a 64-bit target: an optional leading `+`,
then one or more ASCII digits, rejecting overflow past `2 ^ 64`. -/
def parseUsize (s : String) : Option Nat :=
  let digits : List Char :=
    match s.toList with
    | '+' :: rest => rest
    | cs => cs
  if digits.isEmpty then none
  else if digits.all Char.isDigit then
    let v := digits.foldl (fun acc c => acc * 10 + (c.toNat - 48)) 0
    if v < 2 ^ 64 then some v else none
  else none

/-- Modelled from the spec: per-expression field derivation
(`logicalplan.rs`, not under `src/`): a `Column` field copies name and
type from the referenced input field (an invalid reference is a schema
error), an `AggregateFunction` field derives its name from the function
name and its type from the declared return type, a `Literal` field
derives name and type from the literal's value; a `Wildcard` is valid
only inside a projection list, before expansion. -/
def expr_to_field (e : Expr) (input_schema : Schema) : BResult Field :=
  match e with
  | .Column i =>
    match input_schema.field? i with
    | some f => .ok f
    | none => .error (.SchemaError ("invalid column reference " ++ toString i))
  | .Literal (.UInt64 n) => .ok ⟨toString n, DataType.UInt64⟩
  | .AggregateFunction name _ return_type => .ok ⟨name, return_type⟩
  | .Wildcard => .error (.SchemaError "wildcard not supported in field derivation")

/-- Modelled from the spec: `exprlist_to_fields` of the crate's
`logicalplan.rs` (not under `src/`): derives one field per expression,
in order, failing on the first invalid expression. -/
def exprlist_to_fields (exprs : List Expr) (input_schema : Schema) :
    BResult (List Field) :=
  exprs.mapM (fun e => expr_to_field e input_schema)

/-! ## The plan builder (`DataFrame`, from `dataframe.rs`) -/

/-- `DataFrame`: a logical plan paired with the shared backend-state
handle (the `Arc` is pure sharing of an immutable value, so the handle
is embedded by value). -/
structure DataFrame where
  ctx_state : ContextState
  plan : LogicalPlan

/-- `DataFrame::from`: build a builder from an existing plan (`from` is
a Lean keyword, hence the name). -/
def DataFrame.fromPlan (ctx : ContextState) (plan : LogicalPlan) : DataFrame :=
  ⟨ctx, plan⟩

/-- `DataFrame::empty`. -/
def DataFrame.empty (ctx : ContextState) : DataFrame :=
  DataFrame.fromPlan ctx (.EmptyRelation Schema.empty)

/-- `DataFrame::scan_csv`: the out-of-bounds panic of Arrow's
`Schema::field` surfaces as `.panics`; otherwise the `FileScan` node
carries the projected schema (`projected_schema.or(Some(schema)).unwrap()`
in the source: the selected fields when a projection is given, the full
schema otherwise). -/
def DataFrame.scan_csv (ctx : ContextState) (path : String) (schema : Schema)
    (projection : Option (List Nat)) : RustOutcome DataFrame :=
  match projection with
  | some p =>
    match p.mapM schema.field? with
    | none => .panics
    | some fs =>
      .ok (DataFrame.fromPlan ctx (.FileScan path "csv" schema ⟨fs⟩ (some p)))
  | none => .ok (DataFrame.fromPlan ctx (.FileScan path "csv" schema schema none))

/-- `DataFrame::scan_parquet`: the file's native schema comes from the
external `ParquetTable` provider, so it is a parameter here (the
provider's own failure is outside this core); the projection logic is
the same as `scan_csv`. -/
def DataFrame.scan_parquet (ctx : ContextState) (path : String) (schema : Schema)
    (projection : Option (List Nat)) : RustOutcome DataFrame :=
  match projection with
  | some p =>
    match p.mapM schema.field? with
    | none => .panics
    | some fs =>
      .ok (DataFrame.fromPlan ctx (.FileScan path "parquet" schema ⟨fs⟩ (some p)))
  | none =>
    .ok (DataFrame.fromPlan ctx (.FileScan path "parquet" schema schema none))

/-- One step of the wildcard-expansion loop in `DataFrame::project`:
for a `Wildcard`, the source pushes one `Column(i)` per input-schema
field index (`n` is the input schema's field count); for any other
entry it pushes the entry itself. -/
def expand_entry (n : Nat) : Expr → List Expr
  | .Wildcard => (List.range n).map Expr.Column
  | other => [other]

/-- Wildcard expansion inside `DataFrame::project`: when the list
contains a `Wildcard`, the source's loop over the list pushes the
expansion of each entry in order, which is this flat map; otherwise the
list is used as is. -/
def expand_wildcard (expr : List Expr) (input_schema : Schema) : List Expr :=
  if expr.any Expr.isWildcard then
    expr.flatMap (expand_entry input_schema.fields.length)
  else expr

/-- `DataFrame::project`. -/
def DataFrame.project (df : DataFrame) (expr : List Expr) : BResult DataFrame :=
  let input_schema := df.plan.schema
  let projected_expr := expand_wildcard expr input_schema
  match exprlist_to_fields projected_expr input_schema with
  | .error e => .error e
  | .ok fields =>
    .ok (DataFrame.fromPlan df.ctx_state
      (.Projection projected_expr df.plan ⟨fields⟩))

/-- `DataFrame::filter`. -/
def DataFrame.filter (df : DataFrame) (expr : Expr) : BResult DataFrame :=
  .ok (DataFrame.fromPlan df.ctx_state (.Selection expr df.plan))

/-- `DataFrame::limit`: `n as u64` is the truncating cast. -/
def DataFrame.limit (df : DataFrame) (n : Nat) : BResult DataFrame :=
  .ok (DataFrame.fromPlan df.ctx_state
    (.Limit (.Literal (.UInt64 (n % 2 ^ 64))) df.plan df.plan.schema))

/-- `DataFrame::aggregate`: the schema is derived from the group
expressions followed by the aggregate expressions. -/
def DataFrame.aggregate (df : DataFrame) (group_expr aggr_expr : List Expr) :
    BResult DataFrame :=
  let all_fields := group_expr ++ aggr_expr
  match exprlist_to_fields all_fields df.plan.schema with
  | .error e => .error e
  | .ok fields =>
    .ok (DataFrame.fromPlan df.ctx_state
      (.Aggregate df.plan group_expr aggr_expr ⟨fields⟩))

/-- `DataFrame::schema`. -/
def DataFrame.schema (df : DataFrame) : Schema :=
  df.plan.schema

/-- What `collect` hands to its external collaborators: a single
network round trip against a host and port, or a local-engine execution
parameterized by the resolved batch size. -/
inductive CollectWork where
  | sendRequest (host : String) (port : Nat) (action : Action)
  | localExec (batch_size : Nat) (plan : LogicalPlan)

/-- `DataFrame::collect`, modelled up to the hand-off to the external
engine or network client: the `Spark` branch indexes the settings map
with the fixed host and port keys (a missing key panics) and unwraps
the parsed port (an unparseable port panics); the `Remote` branch uses
the bound host and port; the `Local` branch resolves the batch size via
`Configs` and unwraps its parse. -/
def DataFrame.collect (df : DataFrame) : RustOutcome CollectWork :=
  let action := Action.Collect df.plan
  match df.ctx_state with
  | .Spark _ spark_settings =>
    match spark_settings.lookup "spark.ballista.host" with
    | none => .panics
    | some host =>
      match spark_settings.lookup "spark.ballista.port" with
      | none => .panics
      | some port =>
        match parseUsize port with
        | none => .panics
        | some p => .ok (.sendRequest host p action)
  | .Remote host port _ => .ok (.sendRequest host port action)
  | .Local settings =>
    let x := Configs.new settings
    match x.csv_batch_size with
    | none => .panics
    | some s =>
      match parseUsize s with
      | none => .panics
      | some batch_size => .ok (.localExec batch_size df.plan)

/-- `DataFrame::write_csv`: the single match arm catches every backend
variant. -/
def DataFrame.write_csv (df : DataFrame) (_path : String) : BResult Unit :=
  .error (.NotImplemented
    ("write_csv() is not implemented for " ++ df.ctx_state.debugFmt ++ " yet"))

/-- `DataFrame::write_parquet`: the single match arm catches every
backend variant. -/
def DataFrame.write_parquet (df : DataFrame) (_path : String) : BResult Unit :=
  .error (.NotImplemented
    ("write_parquet() is not implemented for " ++ df.ctx_state.debugFmt ++ " yet"))

/-- `Context::read_csv`: the schema argument is unwrapped (`None`
panics, per the source's TODO), then delegated to `scan_csv`. -/
def Context.read_csv (state : ContextState) (path : String)
    (schema : Option Schema) (projection : Option (List Nat))
    (_has_header : Bool) : RustOutcome DataFrame :=
  match schema with
  | none => .panics
  | some s => DataFrame.scan_csv state path s projection

/-! ## Free aggregate-expression constructors -/

/-- `aggregate_expr`: the declared return type is always `Float64`. -/
def aggregate_expr (name : String) (expr : Expr) : Expr :=
  Expr.AggregateFunction name [expr] DataType.Float64

/-- `min`. -/
def min (expr : Expr) : Expr := aggregate_expr "MIN" expr

/-- `max`. -/
def max (expr : Expr) : Expr := aggregate_expr "MAX" expr

/-- `sum`. -/
def sum (expr : Expr) : Expr := aggregate_expr "SUM" expr

/-! ## Observation helpers for the theorems -/

/-- The expression list of a `Projection` node. -/
def LogicalPlan.projectionExprs : LogicalPlan → Option (List Expr)
  | .Projection e _ _ => some e
  | _ => none

/-- The input subtree of a non-leaf node. -/
def LogicalPlan.inputPlan : LogicalPlan → Option LogicalPlan
  | .Projection _ i _ => some i
  | .Selection _ i => some i
  | .Limit _ i _ => some i
  | .Aggregate i _ _ _ => some i
  | _ => none

/-- The count expression of a `Limit` node. -/
def LogicalPlan.limitExpr : LogicalPlan → Option Expr
  | .Limit e _ _ => some e
  | _ => none

/-- The projected schema of a `FileScan` node. -/
def LogicalPlan.fileScanProjectedSchema : LogicalPlan → Option Schema
  | .FileScan _ _ _ ps _ => some ps
  | _ => none

/-- The declared return type of an `AggregateFunction` expression. -/
def Expr.returnType : Expr → Option DataType
  | .AggregateFunction _ _ rt => some rt
  | _ => none

/-- The claim C4's own reading of the projected schema, written from
the spec's words: the fields of the full schema selected by the
projection indices, "preserving the external file's field order"
(i.e. in the order the fields appear in the file, not in the order the
indices are listed). -/
def spec_projected_fields (schema : Schema) (projection : List Nat) : List Field :=
  ((schema.fields.enum).filter (fun p => projection.contains p.1)).map Prod.snd

/-- Boolean success test on a `Result`. -/
def BResult.isOk {α : Type} : BResult α → Bool
  | .ok _ => true
  | .error _ => false

/-! ## Theorems -/

/-- C3: `get_setting` returns the override when the key is present in
the overrides, otherwise the catalog entry's default value when the key
is in the catalog, otherwise `none` with no error; concretely, an
override of "2048" for the batch-size key yields "2048", no override
yields the default "1024", and an unknown key yields `none`. -/
theorem C3_get_setting_two_tier :
    (∀ (overrides : List (String × String)) (key v : String),
      overrides.lookup key = some v →
      (Configs.new overrides).get_setting key = some v) ∧
    (∀ (overrides : List (String × String)) (key : String) (cs : ConfigSetting),
      overrides.lookup key = none →
      (Configs.new overrides).configs.lookup key = some cs →
      (Configs.new overrides).get_setting key = cs.default_value) ∧
    (∀ (overrides : List (String × String)) (key : String),
      overrides.lookup key = none →
      (Configs.new overrides).configs.lookup key = none →
      (Configs.new overrides).get_setting key = none) ∧
    (Configs.new [(CSV_BATCH_SIZE, "2048")]).get_setting CSV_BATCH_SIZE =
      some "2048" ∧
    (Configs.new []).get_setting CSV_BATCH_SIZE = some "1024" ∧
    (Configs.new []).get_setting "unknown.key" = none := by
  refine ⟨?_, ?_, ?_, ?_, ?_, ?_⟩
  · intro overrides key v h
    simp [Configs.get_setting, Configs.new, h]
  · intro overrides key cs h1 h2
    simp [Configs.get_setting, Configs.new] at h2 ⊢
    simp [h1, h2]
  · intro overrides key h1 h2
    unfold Configs.get_setting
    simp only [Configs.new] at h2 ⊢
    rw [h1, h2]
  · decide
  · decide
  · decide

/-- Witness for C3 at concrete inputs. -/
theorem C3_get_setting_two_tier_witness :
    (Configs.new [("k", "v")]).get_setting "k" = some "v" ∧
    (Configs.new []).get_setting CSV_BATCH_SIZE =
      (ConfigSetting.mk CSV_BATCH_SIZE "Number of rows to read per batch"
        (some "1024")).default_value ∧
    (Configs.new []).get_setting "unknown.key" = none :=
  ⟨C3_get_setting_two_tier.1 [("k", "v")] "k" "v" (by decide),
   C3_get_setting_two_tier.2.1 [] CSV_BATCH_SIZE
     (ConfigSetting.mk CSV_BATCH_SIZE "Number of rows to read per batch"
       (some "1024")) (by decide) (by decide),
   C3_get_setting_two_tier.2.2.1 [] "unknown.key" (by decide) (by decide)⟩

/-- C5: `limit(n)` returns a new builder whose schema is exactly the
input builder's schema and whose plan node wraps a `Literal` holding
the unsigned value `n` (the `usize → u64` cast is the identity below
`2 ^ 64`), with the input plan as its subtree. -/
theorem C5_limit_schema_and_literal (df : DataFrame) (n : Nat)
    (h : n < 2 ^ 64) :
    ∃ df', df.limit n = .ok df' ∧
      df'.schema = df.schema ∧
      df'.plan.limitExpr = some (.Literal (.UInt64 n)) ∧
      df'.plan.inputPlan = some df.plan := by
  refine ⟨_, rfl, ?_, ?_, rfl⟩
  · rfl
  · show some (Expr.Literal (.UInt64 (n % 2 ^ 64))) = some (Expr.Literal (.UInt64 n))
    rw [Nat.mod_eq_of_lt h]

/-- Witness for C5 at a concrete builder and count. -/
theorem C5_limit_schema_and_literal_witness :
    ∃ df', (DataFrame.empty (.Local [])).limit 5 = .ok df' ∧
      df'.schema = (DataFrame.empty (.Local [])).schema ∧
      df'.plan.limitExpr = some (.Literal (.UInt64 5)) ∧
      df'.plan.inputPlan = some (DataFrame.empty (.Local [])).plan :=
  C5_limit_schema_and_literal (DataFrame.empty (.Local [])) 5 (by norm_num)

/-- C7: `write_csv` and `write_parquet` unconditionally return a
`NotImplemented` error for every backend variant and never succeed. -/
theorem C7_write_not_implemented (df : DataFrame) (path : String) :
    (∃ m, df.write_csv path = .error (.NotImplemented m)) ∧
    (∃ m, df.write_parquet path = .error (.NotImplemented m)) ∧
    (df.write_csv path).isOk = false ∧
    (df.write_parquet path).isOk = false :=
  ⟨⟨_, rfl⟩, ⟨_, rfl⟩, rfl, rfl⟩

/-- C9: `aggregate_expr` always declares the return type `Float64`,
regardless of the function name and of the argument expression, and
`min`, `max`, `sum` inherit this. -/
theorem C9_aggregate_return_type_float64 (name : String) (e : Expr) :
    (aggregate_expr name e).returnType = some DataType.Float64 ∧
    (min e).returnType = some DataType.Float64 ∧
    (max e).returnType = some DataType.Float64 ∧
    (sum e).returnType = some DataType.Float64 ∧
    aggregate_expr name e = Expr.AggregateFunction name [e] DataType.Float64 :=
  ⟨rfl, rfl, rfl, rfl, rfl⟩

/-- C10: `Context::read_csv` with `schema = None` panics (diverges via
`unwrap`) for every state, path, projection and header flag, so it
never returns through the `Result` channel. -/
theorem C10_read_csv_none_schema_panics (state : ContextState) (path : String)
    (projection : Option (List Nat)) (has_header : Bool) :
    Context.read_csv state path none projection has_header = .panics :=
  rfl

/-- A non-wildcard entry of a projection list expands to itself. -/
theorem expand_entry_of_not_wildcard (e : Expr) (n : Nat)
    (h : e.isWildcard = false) :
    expand_entry n e = [e] := by
  cases e with
  | Wildcard => exact absurd h (by decide)
  | Column i => rfl
  | Literal v => rfl
  | AggregateFunction name args rt => rfl

/-- Over a list with no wildcard, the expansion flat map is the
identity. -/
theorem flatMap_expand_of_no_wildcard (expr : List Expr) (n : Nat)
    (h : expr.any Expr.isWildcard = false) :
    expr.flatMap (expand_entry n) = expr := by
  induction expr with
  | nil => rfl
  | cons e es ih =>
    simp only [List.any_cons, Bool.or_eq_false_iff] at h
    simp only [List.flatMap_cons]
    rw [expand_entry_of_not_wildcard e n h.1, ih h.2]
    rfl

/-- `expand_wildcard` is the positional flat map of `expand_entry`:
a `Wildcard` becomes one `Column i` per input-schema field index in
order, every other entry stays in place. -/
theorem expand_wildcard_eq_flatMap (expr : List Expr) (s : Schema) :
    expand_wildcard expr s = expr.flatMap (expand_entry s.fields.length) := by
  unfold expand_wildcard
  by_cases h : expr.any Expr.isWildcard
  · simp [h]
  · simp only [Bool.not_eq_true] at h
    simp [h, flatMap_expand_of_no_wildcard expr s.fields.length h]

/-- C1: in `project`, each `Wildcard` of the expression list is
replaced in place by one `Column i` per input-schema field index, in
order (`expand_entry`), non-wildcard entries keeping their position
(the expansion is the flat map of `expand_entry`); the resulting
`Projection` node records the expanded list over the original input;
and over a two-field schema the list `[a, Wildcard, b]` expands to
`[a, Column 0, Column 1, b]`. -/
theorem C1_project_wildcard_expansion :
    (∀ (expr : List Expr) (s : Schema),
      expand_wildcard expr s = expr.flatMap (expand_entry s.fields.length)) ∧
    (∀ (n : Nat), expand_entry n Expr.Wildcard =
      (List.range n).map Expr.Column) ∧
    (∀ (df : DataFrame) (expr : List Expr),
      df.project expr =
        (exprlist_to_fields (expand_wildcard expr df.plan.schema)
            df.plan.schema).map
          (fun fields => DataFrame.fromPlan df.ctx_state
            (.Projection (expand_wildcard expr df.plan.schema) df.plan
              ⟨fields⟩))) ∧
    expand_wildcard
        [Expr.Literal (.UInt64 7), Expr.Wildcard, Expr.Literal (.UInt64 9)]
        ⟨[⟨"x", DataType.Utf8⟩, ⟨"y", DataType.Int64⟩]⟩ =
      [Expr.Literal (.UInt64 7), Expr.Column 0, Expr.Column 1,
        Expr.Literal (.UInt64 9)] := by
  refine ⟨expand_wildcard_eq_flatMap, fun n => rfl, ?_, ?_⟩
  · intro df expr
    unfold DataFrame.project
    cases h : exprlist_to_fields (expand_wildcard expr df.plan.schema)
        df.plan.schema <;>
      simp [h, Except.map]
  · rfl

/-- C2 (code behavior at the failing inputs): on a Spark state whose
settings omit the host key or the port key, or whose port value does
not parse as an unsigned integer, `collect` panics (map indexing /
`unwrap`), so it neither reaches the network hand-off nor returns
anything through the `Result` channel — in particular it does not
return a `ConfigurationError`, an empty result, or a partial result. -/
theorem C2_spark_collect_misconfiguration_panics :
    (DataFrame.empty (.Spark "spark://m" [])).collect = .panics ∧
    (DataFrame.empty (.Spark "spark://m"
      [("spark.ballista.host", "h")])).collect = .panics ∧
    (DataFrame.empty (.Spark "spark://m"
      [("spark.ballista.port", "50051")])).collect = .panics ∧
    (DataFrame.empty (.Spark "spark://m"
      [("spark.ballista.host", "h"),
       ("spark.ballista.port", "not-a-number")])).collect = .panics :=
  ⟨rfl, rfl, rfl, rfl⟩

/-- `exprlist_to_fields` maps a concatenation to the concatenation of
the derived field lists. -/
theorem exprlist_to_fields_append (a b : List Expr) (s : Schema)
    (fa fb : List Field) (ha : exprlist_to_fields a s = .ok fa)
    (hb : exprlist_to_fields b s = .ok fb) :
    exprlist_to_fields (a ++ b) s = .ok (fa ++ fb) := by
  unfold exprlist_to_fields at ha hb ⊢
  rw [List.mapM_append, ha, hb]
  rfl

/-- C6: `aggregate` derives its output schema as the concatenation, in
order, of the fields of the group expressions followed by the fields of
the aggregate expressions, over the input plan. -/
theorem C6_aggregate_schema_concat (df : DataFrame)
    (group_expr aggr_expr : List Expr) (gf af : List Field)
    (hg : exprlist_to_fields group_expr df.plan.schema = .ok gf)
    (ha : exprlist_to_fields aggr_expr df.plan.schema = .ok af) :
    ∃ df', df.aggregate group_expr aggr_expr = .ok df' ∧
      df'.schema = ⟨gf ++ af⟩ ∧
      df'.plan.inputPlan = some df.plan := by
  refine ⟨DataFrame.fromPlan df.ctx_state
    (.Aggregate df.plan group_expr aggr_expr ⟨gf ++ af⟩), ?_, rfl, rfl⟩
  simp only [DataFrame.aggregate]
  rw [exprlist_to_fields_append group_expr aggr_expr df.plan.schema gf af hg ha]

/-- Witness for C6: grouping on the first column of an `{a, b}` schema
and aggregating `sum(b)` yields the field of `a` followed by the field
of `SUM`. -/
theorem C6_aggregate_schema_concat_witness :
    ∃ df', (DataFrame.fromPlan (.Local [])
        (.EmptyRelation ⟨[⟨"a", DataType.Int64⟩, ⟨"b", DataType.Float64⟩]⟩)).aggregate
        [Expr.Column 0] [sum (Expr.Column 1)] = .ok df' ∧
      df'.schema = ⟨[⟨"a", DataType.Int64⟩] ++ [⟨"SUM", DataType.Float64⟩]⟩ ∧
      df'.plan.inputPlan = some (DataFrame.fromPlan (.Local [])
        (.EmptyRelation ⟨[⟨"a", DataType.Int64⟩,
          ⟨"b", DataType.Float64⟩]⟩)).plan :=
  C6_aggregate_schema_concat
    (DataFrame.fromPlan (.Local [])
      (.EmptyRelation ⟨[⟨"a", DataType.Int64⟩, ⟨"b", DataType.Float64⟩]⟩))
    [Expr.Column 0] [sum (Expr.Column 1)]
    [⟨"a", DataType.Int64⟩] [⟨"SUM", DataType.Float64⟩] rfl rfl

/-- C8: deriving a filtered builder is a pure construction: the new
`Selection` node embeds the original plan value unchanged as its input,
the derived builder shares only the read-only backend-state handle, and
its schema passes the original's through; the original builder is an
immutable value the construction never alters. -/
theorem C8_filter_leaves_original_unchanged (df : DataFrame) (e : Expr) :
    ∃ df', df.filter e = .ok df' ∧
      df'.plan.inputPlan = some df.plan ∧
      df'.ctx_state = df.ctx_state ∧
      df'.schema = df.schema :=
  ⟨_, rfl, rfl, rfl, rfl⟩

/-- C4 counterexample: with full schema `{x, y}` and projection
`[1, 0]`, the `FileScan`'s projected schema lists the fields in the
order of the projection indices (`[y, x]`), not in the external file's
field order (`[x, y]`) as the claim states. -/
theorem C4_counterexample_projection_order :
    DataFrame.scan_csv (.Local []) "f.csv"
        ⟨[⟨"x", DataType.Utf8⟩, ⟨"y", DataType.Int64⟩]⟩ (some [1, 0]) =
      .ok (DataFrame.fromPlan (.Local [])
        (.FileScan "f.csv" "csv"
          ⟨[⟨"x", DataType.Utf8⟩, ⟨"y", DataType.Int64⟩]⟩
          ⟨[⟨"y", DataType.Int64⟩, ⟨"x", DataType.Utf8⟩]⟩ (some [1, 0]))) ∧
    spec_projected_fields ⟨[⟨"x", DataType.Utf8⟩, ⟨"y", DataType.Int64⟩]⟩
        [1, 0] = [⟨"x", DataType.Utf8⟩, ⟨"y", DataType.Int64⟩] ∧
    ([⟨"y", DataType.Int64⟩, ⟨"x", DataType.Utf8⟩] : List Field) ≠
      [⟨"x", DataType.Utf8⟩, ⟨"y", DataType.Int64⟩] :=
  ⟨rfl, by decide, by decide⟩

/-- C4 (amended): for both file-scan flavors, the projected schema
consists of exactly the fields of the full schema selected by the
projection indices, in the order the indices are listed (which
coincides with the file's field order when the indices are ascending);
with no projection the projected schema equals the full schema. -/
theorem C4_scan_projected_schema (ctx : ContextState) (path : String)
    (schema : Schema) (p : List Nat) (fs : List Field)
    (h : p.mapM schema.field? = some fs) :
    (∃ df, DataFrame.scan_csv ctx path schema (some p) = .ok df ∧
      df.plan.fileScanProjectedSchema = some ⟨fs⟩) ∧
    (∃ df, DataFrame.scan_parquet ctx path schema (some p) = .ok df ∧
      df.plan.fileScanProjectedSchema = some ⟨fs⟩) ∧
    (∃ df, DataFrame.scan_csv ctx path schema none = .ok df ∧
      df.plan.fileScanProjectedSchema = some schema) ∧
    (∃ df, DataFrame.scan_parquet ctx path schema none = .ok df ∧
      df.plan.fileScanProjectedSchema = some schema) := by
  unfold DataFrame.scan_csv DataFrame.scan_parquet
  simp only [h]
  exact ⟨⟨_, rfl, rfl⟩, ⟨_, rfl, rfl⟩, ⟨_, rfl, rfl⟩, ⟨_, rfl, rfl⟩⟩

/-- Witness for C4 at the `{x, y}` schema with projection `[1, 0]`. -/
theorem C4_scan_projected_schema_witness :
    (∃ df, DataFrame.scan_csv (.Local []) "f.csv"
        ⟨[⟨"x", DataType.Utf8⟩, ⟨"y", DataType.Int64⟩]⟩ (some [1, 0]) = .ok df ∧
      df.plan.fileScanProjectedSchema =
        some ⟨[⟨"y", DataType.Int64⟩, ⟨"x", DataType.Utf8⟩]⟩) ∧
    (∃ df, DataFrame.scan_parquet (.Local []) "f.csv"
        ⟨[⟨"x", DataType.Utf8⟩, ⟨"y", DataType.Int64⟩]⟩ (some [1, 0]) = .ok df ∧
      df.plan.fileScanProjectedSchema =
        some ⟨[⟨"y", DataType.Int64⟩, ⟨"x", DataType.Utf8⟩]⟩) ∧
    (∃ df, DataFrame.scan_csv (.Local []) "f.csv"
        ⟨[⟨"x", DataType.Utf8⟩, ⟨"y", DataType.Int64⟩]⟩ none = .ok df ∧
      df.plan.fileScanProjectedSchema =
        some ⟨[⟨"x", DataType.Utf8⟩, ⟨"y", DataType.Int64⟩]⟩) ∧
    (∃ df, DataFrame.scan_parquet (.Local []) "f.csv"
        ⟨[⟨"x", DataType.Utf8⟩, ⟨"y", DataType.Int64⟩]⟩ none = .ok df ∧
      df.plan.fileScanProjectedSchema =
        some ⟨[⟨"x", DataType.Utf8⟩, ⟨"y", DataType.Int64⟩]⟩) :=
  C4_scan_projected_schema (.Local []) "f.csv"
    ⟨[⟨"x", DataType.Utf8⟩, ⟨"y", DataType.Int64⟩]⟩ [1, 0]
    [⟨"y", DataType.Int64⟩, ⟨"x", DataType.Utf8⟩] rfl

end Ballista
